import Mathlib

/-!
Shallow embedding of the multi-network explorer client of
`mcp-etherscan-server` (files `src/services/etherscanService.ts` and
`src/server.ts`), together with proofs checking the repository's
specification claims against it.

Stateful JS/TS code is embedded as pure Lean functions: the upstream HTTP
layer is passed in as an explicit response value (or oracle function), and
every operation additionally returns the list of outbound calls it issued,
so that "no upstream call is made" is a provable statement.  Thrown JS
errors become `Except.error` carrying the exact message string the code
builds.
-/

namespace Escan

/-- The closed network enumeration: `export type NetworkType = 'ethereum' | 'sonic' | 'base'`. -/
inductive NetworkType where
  | ethereum
  | sonic
  | base
deriving DecidableEq

/-- Rendering of a `NetworkType` value as the string it is in TS. -/
def NetworkType.toStr : NetworkType → String
  | .ethereum => "ethereum"
  | .sonic => "sonic"
  | .base => "base"

/-- The `ApiEndpoints` interface of `etherscanService.ts`. -/
structure ApiEndpoints where
  apiUrl : String
  networkName : String
  currencySymbol : String
deriving DecidableEq

/-- The `NETWORK_CONFIGS` table of `etherscanService.ts`. -/
def NETWORK_CONFIGS : NetworkType → ApiEndpoints
  | .ethereum => { apiUrl := "https://api.etherscan.io/api", networkName := "mainnet", currencySymbol := "ETH" }
  | .sonic => { apiUrl := "https://explorer.sonic.onerpc.com/api", networkName := "sonic", currencySymbol := "SONIC" }
  | .base => { apiUrl := "https://api.basescan.org/api", networkName := "base", currencySymbol := "ETH" }

/-- The constructor state of `EtherscanService`: the per-network API key map
and the default network.  The `providers` record of the constructor holds an
entry exactly for the networks whose key is non-empty, so it is represented
by the derived predicate `hasProvider` rather than duplicated state. -/
structure Env where
  apiKeys : NetworkType → String
  defaultNetwork : NetworkType

/-- The resolution rule `network || this.defaultNetwork` used by every operation. -/
def resolveNetwork (env : Env) (network : Option NetworkType) : NetworkType :=
  network.getD env.defaultNetwork

/-- Whether the constructor created a provider for a network:
`if (this.apiKeys[network]) \x7b this.providers[network] = new ethers.EtherscanProvider(...) \x7d`. -/
def hasProvider (env : Env) (n : NetworkType) : Bool :=
  env.apiKeys n != ""

/-- `isNetworkSupported`: `!!this.apiKeys[selectedNetwork] && !!this.providers[selectedNetwork]`,
which by construction is just key non-emptiness of the resolved network. -/
def isNetworkSupported (env : Env) (network : Option NetworkType) : Bool :=
  let sel := resolveNetwork env network
  env.apiKeys sel != "" && hasProvider env sel

/-- The message thrown by `getProvider` for a network without a provider. -/
def providerMissingMsg (n : NetworkType) : String :=
  "Network " ++ n.toStr ++ " is not supported or missing API key"

/-- `getProvider`: throws when the resolved network has no provider (empty key). -/
def getProvider (env : Env) (network : Option NetworkType) : Except String NetworkType :=
  let sel := resolveNetwork env network
  if hasProvider env sel then Except.ok sel else Except.error (providerMissingMsg sel)

/-- `availableNetworks` of `server.ts`: the networks whose API key is
non-empty, in the insertion order of the `apiKeys` object literal. -/
def availableNetworks (env : Env) : List NetworkType :=
  [NetworkType.ethereum, NetworkType.sonic, NetworkType.base].filter
    (fun n => env.apiKeys n != "")

/-- The `Available networks: ...` tail of the handler-level unsupported-network message. -/
def availListMsg (env : Env) : String :=
  "Available networks: " ++
    String.intercalate ", " ((availableNetworks env).map NetworkType.toStr)

/-- The handler-level message for an explicitly requested network that is not usable. -/
def networkUnsupMsg (env : Env) (n : NetworkType) : String :=
  ("Network \"" ++ n.toStr ++ "\" is not supported or missing API key. ") ++
    availListMsg env

/-! ### JavaScript semantics helpers -/

/-- JS `x || d` on an optional string: `undefined` and `""` are falsy. -/
def jsOr (o : Option String) (d : String) : String :=
  match o with
  | none => d
  | some s => if s = "" then d else s

/-- JS `x || 0` applied to a number that may be `NaN` (represented as `none`).
`parseInt(..) || 0` maps `NaN` to `0` and keeps every other integer (mapping
`0` to `0` as well, which is the identity there). -/
def jsIntOrZero (o : Option Int) : Int :=
  match o with
  | none => 0
  | some v => v

/-- Decimal value of a list of digit characters. -/
def decDigitsVal (l : List Char) : Nat :=
  l.foldl (fun a c => a * 10 + (c.toNat - 48)) 0

/-- Value of the leading run of decimal digits; `none` when there is none
(which is JS `NaN`). -/
def leadingDigitsVal (l : List Char) : Option Nat :=
  let ds := l.takeWhile Char.isDigit
  if ds.isEmpty then none else some (decDigitsVal ds)

/-- Core of JS `parseInt(s)` (radix 10 path): skip whitespace, optional sign,
value of the leading digit run, `NaN` (`none`) when no digits follow.  The
hexadecimal `0x` prefix form of `parseInt` is not reached by this codebase's
inputs and is not modelled. -/
def parseIntCore (l : List Char) : Option Int :=
  let l := l.dropWhile (fun c => c = ' ' || c = '\t' || c = '\n' || c = '\r')
  match l with
  | '-' :: rest => (leadingDigitsVal rest).map (fun n => -(n : Int))
  | '+' :: rest => (leadingDigitsVal rest).map (fun n => (n : Int))
  | rest => (leadingDigitsVal rest).map (fun n => (n : Int))

/-- JS `parseInt` applied to a JSON field that may be absent (`none`):
`parseInt(undefined)` is `NaN`, represented as `none`. -/
def jsParseInt : Option String → Option Int
  | none => none
  | some s => parseIntCore s.data

/-- ethers v6 `getBigInt` on a JSON string field (decimal form): an optional
leading minus followed by a non-empty digit run; anything else (including an
absent field) throws, represented as `none`.  The `0x`/`0o`/`0b` literal
forms accepted by JS `BigInt` are not produced by the explorer API and are
not modelled. -/
def getBigInt : Option String → Option Int
  | none => none
  | some s =>
    match s.data with
    | [] => none
    | '-' :: rest =>
      if !rest.isEmpty && rest.all Char.isDigit then
        some (-(decDigitsVal rest : Int))
      else none
    | l =>
      if l.all Char.isDigit then some ((decDigitsVal l : Int)) else none

/-! ### ethers v6 fixed-point formatting (`formatUnits` / `formatEther`) -/

/-- The leading-zero trim of ethers v6 `FixedNumber` string rendering:
`while (str[0] === "0" && str[1] !== ".") str = str.substring(1)`.
The strings this is applied to always contain a decimal point preceded by a
digit, so the single-character case is unreachable and left as the identity. -/
def trimZerosFront : List Char → List Char
  | '0' :: c :: rest => if c = '.' then '0' :: c :: rest else trimZerosFront (c :: rest)
  | l => l

/-- The trailing-zero trim (`leaving at least one 0` after the point),
which is the leading trim applied to the reversed character list. -/
def trimZerosBack (l : List Char) : List Char :=
  (trimZerosFront l.reverse).reverse

/-- ethers v6 `toString(val, decimals)` of `fixednumber.ts`: pad the digit
string so a whole digit exists, insert the decimal point, trim the whole
component leaving at least one digit, trim the decimal component leaving at
least one digit.  `formatEther(10^18)` is therefore `"1.0"`, not `"1"`. -/
def fnToString (val : Int) (decimals : Nat) : String :=
  let negative := decide (val < 0)
  let digits := val.natAbs.repr.data
  if decimals = 0 then
    (if negative then "-" else "") ++ String.mk digits
  else
    let padded := List.replicate (decimals + 1 - digits.length) '0' ++ digits
    let index := padded.length - decimals
    let withPoint := padded.take index ++ ['.'] ++ padded.drop index
    let trimmed := trimZerosBack (trimZerosFront withPoint)
    (if negative then "-" else "") ++ String.mk trimmed

/-- ethers v6 `formatUnits(value, decimals)` where `value` is a JSON string
field and `decimals` is a JS number that may be `NaN` (`none`): a `NaN` or
negative decimal count and a non-numeric value string both throw. -/
def formatUnits (value : Option String) (decimals : Option Int) : Except String String :=
  match decimals with
  | none => Except.error "invalid numeric value"
  | some d =>
    if d < 0 then Except.error "invalid fixed format"
    else
      match getBigInt value with
      | none => Except.error "invalid BigNumberish value"
      | some v => Except.ok (fnToString v d.toNat)

/-- ethers v6 `formatEther(value)` on a JSON string field: `formatUnits` at 18 decimals. -/
def formatEtherStr (value : Option String) : Except String String :=
  formatUnits value (some 18)

/-- The message core of the ethers `INVALID_ARGUMENT` error thrown by
`ethers.getAddress` on a malformed address (abstracted to its leading words). -/
def invalidAddressMsg : String := "invalid address"

example : fnToString 1000000000000000000 18 = "1.0" := by decide
example : fnToString 500000 6 = "0.5" := by decide
example : fnToString 1000 18 = "0.000000000000001" := by decide
example : jsParseInt (some "18") = some 18 := by decide
example : jsParseInt (some "abc") = none := by decide
example : jsParseInt none = none := by decide

/-! ### Upstream payload rows and result records -/

/-- One row of the `txlist` JSON payload; every field is untyped text that
may be absent. -/
structure TxRow where
  hash : Option String
  fromAddr : Option String
  toAddr : Option String
  value : Option String
  timeStamp : Option String
  blockNumber : Option String
deriving DecidableEq

/-- The `Transaction` interface of `etherscanService.ts`.  The TS `from`
field is named `fromAddr` because `from` is a reserved word in Lean. -/
structure Transaction where
  hash : Option String
  fromAddr : Option String
  toAddr : String
  value : String
  timestamp : Int
  blockNumber : Int
deriving DecidableEq

/-- One row of the `tokentx` JSON payload. -/
structure TokenRow where
  contractAddress : Option String
  tokenName : Option String
  tokenSymbol : Option String
  fromAddr : Option String
  toAddr : Option String
  value : Option String
  timeStamp : Option String
  blockNumber : Option String
  tokenDecimal : Option String
deriving DecidableEq

/-- The `TokenTransfer` interface of `etherscanService.ts`. -/
structure TokenTransfer where
  token : Option String
  tokenName : Option String
  tokenSymbol : Option String
  fromAddr : Option String
  toAddr : Option String
  value : String
  timestamp : Int
  blockNumber : Int
deriving DecidableEq

/-- The gas-oracle `result` object of the upstream payload. -/
structure GasRow where
  SafeGasPrice : Option String
  ProposeGasPrice : Option String
  FastGasPrice : Option String
deriving DecidableEq

/-- The `GasPrice` interface of `etherscanService.ts`. -/
structure GasPrice where
  safeGwei : Option String
  proposeGwei : Option String
  fastGwei : Option String
deriving DecidableEq

/-- The explorer-family response envelope
`\x7b status: "1"|"0", message: string, result: payload-or-absent \x7d`;
`message` and `result` may be absent (`none`). -/
structure ApiResponse (ρ : Type) where
  status : String
  message : Option String
  result : Option ρ
deriving DecidableEq

/-- One outbound call of an operation: an explorer HTTP GET or an ethers
provider method.  Operations return the list of calls they issued. -/
inductive OutCall where
  | providerGetBalance (network : NetworkType) (addr : String)
  | providerLookupAddress (network : NetworkType) (addr : String)
  | httpGet (url : String)
deriving DecidableEq

/-- Map a fallible per-row conversion over a list, failing on the first
error — the behaviour of a throwing callback inside `Array.prototype.map`. -/
def mapME (f : α → Except ε β) : List α → Except ε (List β)
  | [] => Except.ok []
  | a :: as =>
    match f a with
    | Except.error e => Except.error e
    | Except.ok b =>
      match mapME f as with
      | Except.error e => Except.error e
      | Except.ok bs => Except.ok (b :: bs)

/-! ### The service operations -/

/-- The success record of `getAddressBalance`. -/
structure BalanceOut where
  address : String
  balanceInWei : Int
  balanceInEth : String
  currencySymbol : String
  network : NetworkType
deriving DecidableEq

/-- `getAddressBalance` of `etherscanService.ts`.  `canon` is the external
address-canonicalization capability (`ethers.getAddress`), `bal` the
provider balance oracle (`provider.getBalance`, modelled as the successful
upstream reply).  Note the code resolves the provider before it validates
the address, and the catch block prefixes every thrown message. -/
def getAddressBalance (env : Env) (canon : String → Option String)
    (bal : NetworkType → String → Int) (address : String)
    (network : Option NetworkType) :
    Except String BalanceOut × List OutCall :=
  match getProvider env network with
  | Except.error e => (Except.error ("Failed to get balance: " ++ e), [])
  | Except.ok sel =>
    match canon address with
    | none => (Except.error ("Failed to get balance: " ++ invalidAddressMsg), [])
    | some validAddress =>
      let cfg := NETWORK_CONFIGS sel
      let wei := bal sel validAddress
      (Except.ok { address := validAddress, balanceInWei := wei,
                   balanceInEth := fnToString wei 18,
                   currencySymbol := cfg.currencySymbol, network := sel },
       [OutCall.providerGetBalance sel validAddress])

/-- `getENSName` of `etherscanService.ts`: provider first, then address
canonicalization; the ENS lookup (`ens`, modelling
`provider.lookupAddress`) is issued only when the resolved configuration's
`networkName` is `"mainnet"`; every other network yields `null` with no
upstream call. -/
def getENSName (env : Env) (canon : String → Option String)
    (ens : String → Option String) (address : String)
    (network : Option NetworkType) :
    Except String (Option String) × List OutCall :=
  match getProvider env network with
  | Except.error e => (Except.error ("Failed to get ENS name: " ++ e), [])
  | Except.ok sel =>
    let cfg := NETWORK_CONFIGS sel
    match canon address with
    | none => (Except.error ("Failed to get ENS name: " ++ invalidAddressMsg), [])
    | some validAddress =>
      if cfg.networkName = "mainnet" then
        (Except.ok (ens validAddress), [OutCall.providerLookupAddress sel validAddress])
      else
        (Except.ok none, [])

/-- The `txlist` query URL built by `getTransactionHistory`. -/
def txUrl (env : Env) (sel : NetworkType) (validAddress : String) (limit : Nat) : String :=
  (NETWORK_CONFIGS sel).apiUrl ++ "?module=account&action=txlist&address=" ++
    validAddress ++ "&startblock=0&endblock=99999999&page=1&offset=" ++
    toString limit ++ "&sort=desc&apikey=" ++ env.apiKeys sel

/-- The per-row conversion of `getTransactionHistory`
(lines 170-177 of the service): `formatEther` may throw; an empty or absent
recipient becomes the `Contract Creation` sentinel; timestamp and block
number are `parseInt(..) || 0`. -/
def formatTxRow (row : TxRow) : Except String Transaction :=
  match formatEtherStr row.value with
  | Except.error e => Except.error e
  | Except.ok v =>
    Except.ok { hash := row.hash, fromAddr := row.fromAddr,
                toAddr := jsOr row.toAddr "Contract Creation", value := v,
                timestamp := jsIntOrZero (jsParseInt row.timeStamp),
                blockNumber := jsIntOrZero (jsParseInt row.blockNumber) }

/-- `getTransactionHistory` of `etherscanService.ts`.  `resp` is the parsed
JSON of the single `fetch`; the condition
`if (data.status !== "1" || !data.result) throw` is mirrored exactly, and
rows are truncated with `slice(0, limit)` before conversion. -/
def getTransactionHistory (env : Env) (canon : String → Option String)
    (resp : ApiResponse (List TxRow)) (address : String) (limit : Nat)
    (network : Option NetworkType) :
    Except String (List Transaction) × List OutCall :=
  let sel := resolveNetwork env network
  match canon address with
  | none => (Except.error ("Failed to get transaction history: " ++ invalidAddressMsg), [])
  | some validAddress =>
    let trace := [OutCall.httpGet (txUrl env sel validAddress limit)]
    if resp.status = "1" then
      match resp.result with
      | some rows =>
        match mapME formatTxRow (rows.take limit) with
        | Except.ok txs => (Except.ok txs, trace)
        | Except.error e => (Except.error ("Failed to get transaction history: " ++ e), trace)
      | none =>
        (Except.error ("Failed to get transaction history: " ++
          jsOr resp.message "Failed to fetch transactions"), trace)
    else
      (Except.error ("Failed to get transaction history: " ++
        jsOr resp.message "Failed to fetch transactions"), trace)

/-- The `tokentx` query URL built by `getTokenTransfers`. -/
def tokenUrl (env : Env) (sel : NetworkType) (validAddress : String) (limit : Nat) : String :=
  (NETWORK_CONFIGS sel).apiUrl ++ "?module=account&action=tokentx&address=" ++
    validAddress ++ "&page=1&offset=" ++ toString limit ++
    "&sort=desc&apikey=" ++ env.apiKeys sel

/-- The per-row conversion of `getTokenTransfers` (lines 205-214 of the
service): the value is formatted with the per-row decimal count
`parseInt(tx.tokenDecimal)`, and `formatUnits` throws when that count is
`NaN`, so a missing or non-numeric decimal field fails the whole call. -/
def formatTokenRow (row : TokenRow) : Except String TokenTransfer :=
  match formatUnits row.value (jsParseInt row.tokenDecimal) with
  | Except.error e => Except.error e
  | Except.ok v =>
    Except.ok { token := row.contractAddress, tokenName := row.tokenName,
                tokenSymbol := row.tokenSymbol, fromAddr := row.fromAddr,
                toAddr := row.toAddr, value := v,
                timestamp := jsIntOrZero (jsParseInt row.timeStamp),
                blockNumber := jsIntOrZero (jsParseInt row.blockNumber) }

/-- `getTokenTransfers` of `etherscanService.ts`. -/
def getTokenTransfers (env : Env) (canon : String → Option String)
    (resp : ApiResponse (List TokenRow)) (address : String) (limit : Nat)
    (network : Option NetworkType) :
    Except String (List TokenTransfer) × List OutCall :=
  let sel := resolveNetwork env network
  match canon address with
  | none => (Except.error ("Failed to get token transfers: " ++ invalidAddressMsg), [])
  | some validAddress =>
    let trace := [OutCall.httpGet (tokenUrl env sel validAddress limit)]
    if resp.status = "1" then
      match resp.result with
      | some rows =>
        match mapME formatTokenRow (rows.take limit) with
        | Except.ok txs => (Except.ok txs, trace)
        | Except.error e => (Except.error ("Failed to get token transfers: " ++ e), trace)
      | none =>
        (Except.error ("Failed to get token transfers: " ++
          jsOr resp.message "Failed to fetch token transfers"), trace)
    else
      (Except.error ("Failed to get token transfers: " ++
        jsOr resp.message "Failed to fetch token transfers"), trace)

/-- The gas-oracle query URL built by `getGasOracle`. -/
def gasUrl (env : Env) (sel : NetworkType) : String :=
  (NETWORK_CONFIGS sel).apiUrl ++ "?module=gastracker&action=gasoracle&apikey=" ++
    env.apiKeys sel

/-- `getGasOracle` of `etherscanService.ts`: on `status !== "1"` or an
absent result the inner throw carries `data.message || default`, and the
catch block prefixes it with `Failed to get gas prices: `. -/
def getGasOracle (env : Env) (resp : ApiResponse GasRow)
    (network : Option NetworkType) :
    Except String GasPrice × List OutCall :=
  let sel := resolveNetwork env network
  let trace := [OutCall.httpGet (gasUrl env sel)]
  if resp.status = "1" then
    match resp.result with
    | some r =>
      (Except.ok { safeGwei := r.SafeGasPrice, proposeGwei := r.ProposeGasPrice,
                   fastGwei := r.FastGasPrice }, trace)
    | none =>
      (Except.error ("Failed to get gas prices: " ++
        jsOr resp.message "Failed to fetch gas prices"), trace)
  else
    (Except.error ("Failed to get gas prices: " ++
      jsOr resp.message "Failed to fetch gas prices"), trace)

/-! ### The tool handlers of `server.ts` -/

/-- The success text of the `check-balance` tool. -/
def balanceText (env : Env) (canon : String → Option String)
    (bal : NetworkType → String → Int) (address : String)
    (network : Option NetworkType) : Except String String :=
  match (getAddressBalance env canon bal address network).1 with
  | Except.error e => Except.error e
  | Except.ok b =>
    Except.ok ("Address: " ++ b.address ++ "\nBalance: " ++ b.balanceInEth ++
      " " ++ b.currencySymbol ++ "\nNetwork: " ++ b.network.toStr)

/-- The `check-balance` branch of the `CallToolRequestSchema` handler:
an explicitly named network without a usable key short-circuits to the
`Available networks` message; an unusable default network is not caught
here and surfaces as the service's thrown error. -/
def handleCheckBalance (env : Env) (canon : String → Option String)
    (bal : NetworkType → String → Int) (address : String)
    (network : Option NetworkType) : Except String String :=
  match network with
  | some n =>
    if isNetworkSupported env (some n) then
      balanceText env canon bal address network
    else
      Except.ok (networkUnsupMsg env n)
  | none => balanceText env canon bal address network

/-- The ENS not-supported message of the `get-ens-name` handler. -/
def ensOnlyMainnetMsg (n : NetworkType) : String :=
  "ENS is only available on Ethereum mainnet. Requested network: " ++ n.toStr

/-- The ENS not-found message of the `get-ens-name` handler. -/
def ensNotFoundMsg (address : String) : String :=
  "No ENS name found for " ++ address

/-- The ENS found message of the `get-ens-name` handler. -/
def ensFoundMsg (address name : String) : String :=
  "ENS name for " ++ address ++ ": " ++ name

/-- The part of the `get-ens-name` handler after the explicit-network
usability check: call the service, then report not-supported for a
non-ethereum resolved network, else found / not-found (a `null` or empty
name is falsy). -/
def ensLookupText (env : Env) (canon : String → Option String)
    (ens : String → Option String) (address : String)
    (network : Option NetworkType) : Except String String × List OutCall :=
  let selectedNetwork := resolveNetwork env network
  match getENSName env canon ens address network with
  | (Except.error e, tr) => (Except.error e, tr)
  | (Except.ok ensName, tr) =>
    if selectedNetwork ≠ NetworkType.ethereum then
      (Except.ok (ensOnlyMainnetMsg selectedNetwork), tr)
    else
      match ensName with
      | some nm =>
        if nm = "" then (Except.ok (ensNotFoundMsg address), tr)
        else (Except.ok (ensFoundMsg address nm), tr)
      | none => (Except.ok (ensNotFoundMsg address), tr)

/-- The `get-ens-name` branch of the `CallToolRequestSchema` handler
(lines 384-417 of `server.ts`). -/
def handleGetEnsName (env : Env) (canon : String → Option String)
    (ens : String → Option String) (address : String)
    (network : Option NetworkType) : Except String String × List OutCall :=
  match network with
  | some n =>
    if isNetworkSupported env (some n) then
      ensLookupText env canon ens address network
    else
      (Except.ok (networkUnsupMsg env n), [])
  | none => ensLookupText env canon ens address network

/-! ### Substring search (used to state that a message includes the network list) -/

/-- Whether the second character list is a prefix of the first. -/
def startsWithChars : List Char → List Char → Bool
  | _, [] => true
  | [], _ :: _ => false
  | a :: as, b :: bs => a == b && startsWithChars as bs

/-- Whether the second character list occurs contiguously inside the first. -/
def listHasSub : List Char → List Char → Bool
  | [], pat => startsWithChars [] pat
  | a :: as, pat => startsWithChars (a :: as) pat || listHasSub as pat

/-- Whether `pat` occurs as a contiguous substring of `s`. -/
def strContainsSub (s pat : String) : Bool :=
  listHasSub s.data pat.data

/-! ### Sample instances of the external capabilities (used by witnesses) -/

/-- A sample instance of the external address-canonicalization capability:
accepts exactly the all-lowercase `0x`-prefixed 40-hex-digit strings and
returns them unchanged. -/
def canonSample (s : String) : Option String :=
  if s.data.length = 42 && startsWithChars s.data ['0', 'x'] &&
      (s.data.drop 2).all (fun c => c.isDigit || ('a' ≤ c && c ≤ 'f')) then
    some s
  else none

/-- A sample balance oracle. -/
def balSample : NetworkType → String → Int := fun _ _ => 1500000000000000000

/-- A sample ENS oracle that never finds a name. -/
def ensNone : String → Option String := fun _ => none

/-- A sample valid (lowercase) address. -/
def cAddr : String := "0x742d35cc6634c0532925a3b844bc454e4438f44e"

/-- A sample malformed address (wrong characters). -/
def cBadAddr : String := "0xZZZZ"

/-- A credential set with a key only for ethereum, defaulting to sonic. -/
def cEnvEthOnly : Env :=
  { apiKeys := fun n => match n with
      | NetworkType.ethereum => "KEY"
      | _ => ""
    defaultNetwork := NetworkType.sonic }

/-- A credential set with keys for all three networks, defaulting to ethereum. -/
def cEnvAll : Env :=
  { apiKeys := fun _ => "KEY", defaultNetwork := NetworkType.ethereum }

/-! ### Helper lemmas -/

theorem str_data_append (s t : String) : (s ++ t).data = s.data ++ t.data := by
  cases s
  cases t
  rfl

theorem startsWithChars_self_append (p r : List Char) :
    startsWithChars (p ++ r) p = true := by
  induction p with
  | nil => simp [startsWithChars]
  | cons a as ih => simp [startsWithChars, ih]

theorem listHasSub_self_suffix (A p : List Char) :
    listHasSub (A ++ p) p = true := by
  induction A with
  | nil =>
    cases p with
    | nil => rfl
    | cons a as =>
      have h := startsWithChars_self_append (a :: as) []
      simp at h
      simp [listHasSub, h]
  | cons a as ih =>
    simp [listHasSub, ih]

theorem mapME_length {f : α → Except ε β} {l : List α} {out : List β}
    (h : mapME f l = Except.ok out) : out.length = l.length := by
  induction l generalizing out with
  | nil =>
    simp [mapME] at h
    simp [← h]
  | cons a as ih =>
    simp only [mapME] at h
    cases hf : f a with
    | error e => rw [hf] at h; exact absurd h (by simp)
    | ok b =>
      rw [hf] at h
      cases hm : mapME f as with
      | error e => rw [hm] at h; exact absurd h (by simp)
      | ok bs =>
        rw [hm] at h
        cases h
        simp [ih hm]

theorem networkName_mainnet_iff (n : NetworkType) :
    (NETWORK_CONFIGS n).networkName = "mainnet" ↔ n = NetworkType.ethereum := by
  cases n <;> simp [NETWORK_CONFIGS]

theorem head_ne_of_string_ne {s t : String}
    (h : s.data.head? ≠ t.data.head?) : s ≠ t := by
  intro he
  exact h (by rw [he])

/-- A successful `getTransactionHistory` call got a payload of rows and its
output is the converted `limit`-truncation of them. -/
theorem txHistory_ok_rows {env : Env} {canon : String → Option String}
    {resp : ApiResponse (List TxRow)} {address : String} {limit : Nat}
    {network : Option NetworkType} {txs : List Transaction} {tr : List OutCall}
    (h : getTransactionHistory env canon resp address limit network = (Except.ok txs, tr)) :
    ∃ rows, resp.result = some rows ∧
      mapME formatTxRow (rows.take limit) = Except.ok txs := by
  simp only [getTransactionHistory] at h
  cases hc : canon address with
  | none => simp only [hc] at h; exact absurd h (by simp)
  | some va =>
    simp only [hc] at h
    by_cases hs : resp.status = "1"
    · rw [if_pos hs] at h
      cases hr : resp.result with
      | none => simp only [hr] at h; exact absurd h (by simp)
      | some rows =>
        simp only [hr] at h
        cases hm : mapME formatTxRow (rows.take limit) with
        | error e => simp only [hm] at h; exact absurd h (by simp)
        | ok l =>
          simp only [hm] at h
          rw [Prod.mk.injEq] at h
          obtain ⟨h1, -⟩ := h
          injection h1 with h1
          subst h1
          exact ⟨rows, rfl, hm⟩
    · rw [if_neg hs] at h; exact absurd h (by simp)

/-! ## Claim theorems -/

/-- C5: for every address, every canonicalization function and every
resolved network whose credential is empty, `getAddressBalance` fails with
the missing-credential (`NetworkUnavailable`) error and issues no outbound
call at all. -/
theorem c5_balance_no_credential (env : Env) (canon : String → Option String)
    (bal : NetworkType → String → Int) (address : String)
    (network : Option NetworkType)
    (h : env.apiKeys (resolveNetwork env network) = "") :
    getAddressBalance env canon bal address network =
      (Except.error ("Failed to get balance: " ++
        providerMissingMsg (resolveNetwork env network)), []) := by
  unfold getAddressBalance getProvider
  simp [hasProvider, h]

/-- C5 witness: with only an ethereum key and sonic as default network, a
balance query without an explicit network fails with the sonic
missing-credential error and an empty outbound-call trace. -/
theorem c5_witness :
    cEnvEthOnly.apiKeys (resolveNetwork cEnvEthOnly none) = "" ∧
    getAddressBalance cEnvEthOnly canonSample balSample cAddr none =
      (Except.error ("Failed to get balance: " ++
        providerMissingMsg (resolveNetwork cEnvEthOnly none)), []) :=
  ⟨rfl, c5_balance_no_credential cEnvEthOnly canonSample balSample cAddr none rfl⟩

/-- C7: for every environment, response, address, limit and network, a
successful `getTransactions` never returns more than `limit` records, even
when the upstream payload holds more rows. -/
theorem c7_limit {env : Env} {canon : String → Option String}
    {resp : ApiResponse (List TxRow)} {address : String} {limit : Nat}
    {network : Option NetworkType} {txs : List Transaction} {tr : List OutCall}
    (h : getTransactionHistory env canon resp address limit network = (Except.ok txs, tr)) :
    txs.length ≤ limit := by
  obtain ⟨rows, -, hm⟩ := txHistory_ok_rows h
  rw [mapME_length hm, List.length_take]
  exact min_le_left _ _

/-- A sample upstream transaction row (recipient present). -/
def cTxRow1 : TxRow :=
  { hash := some "0xh1", fromAddr := some "0xa", toAddr := some "0xb",
    value := some "1000000000000000000", timeStamp := some "1700000000",
    blockNumber := some "100" }

/-- A second sample upstream transaction row. -/
def cTxRow2 : TxRow :=
  { hash := some "0xh2", fromAddr := some "0xa", toAddr := some "0xb",
    value := some "500000000000000000", timeStamp := some "1700000001",
    blockNumber := some "101" }

/-- A third sample upstream transaction row. -/
def cTxRow3 : TxRow :=
  { hash := some "0xh3", fromAddr := some "0xa", toAddr := some "0xb",
    value := some "2000000000000000000", timeStamp := some "1700000002",
    blockNumber := some "102" }

/-- A response carrying three transaction rows. -/
def respThreeTx : ApiResponse (List TxRow) :=
  { status := "1", message := some "OK", result := some [cTxRow1, cTxRow2, cTxRow3] }

/-- The two records produced from `respThreeTx` at limit 2. -/
def cTxsTwo : List Transaction :=
  [{ hash := some "0xh1", fromAddr := some "0xa", toAddr := "0xb",
     value := "1.0", timestamp := 1700000000, blockNumber := 100 },
   { hash := some "0xh2", fromAddr := some "0xa", toAddr := "0xb",
     value := "0.5", timestamp := 1700000001, blockNumber := 101 }]

/-- C7 witness: with a three-row upstream payload and limit 2, the call
succeeds with exactly two records, and the theorem bounds their number. -/
theorem c7_witness :
    getTransactionHistory cEnvAll canonSample respThreeTx cAddr 2 none =
      (Except.ok cTxsTwo,
       [OutCall.httpGet (txUrl cEnvAll NetworkType.ethereum cAddr 2)]) ∧
    cTxsTwo.length ≤ 2 :=
  ⟨rfl, @c7_limit cEnvAll canonSample respThreeTx cAddr 2 none cTxsTwo
    [OutCall.httpGet (txUrl cEnvAll NetworkType.ethereum cAddr 2)] rfl⟩

/-- C8: a transaction row converts successfully only to a record whose
recipient is never the empty string, and an empty or absent upstream
recipient field yields the `Contract Creation` sentinel. -/
theorem c8_contract_creation (r : TxRow) (tx : Transaction)
    (h : formatTxRow r = Except.ok tx) :
    ((r.toAddr = none ∨ r.toAddr = some "") → tx.toAddr = "Contract Creation") ∧
    tx.toAddr ≠ "" := by
  unfold formatTxRow at h
  cases hv : formatEtherStr r.value with
  | error e => rw [hv] at h; exact absurd h (by simp)
  | ok v =>
    rw [hv] at h
    injection h with h
    subst h
    constructor
    · intro hempty
      rcases hempty with he | he <;> simp [jsOr, he]
    · show jsOr r.toAddr "Contract Creation" ≠ ""
      unfold jsOr
      match r.toAddr with
      | none => decide
      | some s =>
        by_cases hs : s = ""
        · simp [hs]
        · simp [hs]

/-- A transaction row with an absent recipient (a contract creation). -/
def cTxRowNoTo : TxRow :=
  { hash := some "0xh4", fromAddr := some "0xa", toAddr := none,
    value := some "1000000000000000000", timeStamp := some "1700000003",
    blockNumber := some "103" }

/-- The record produced from `cTxRowNoTo`. -/
def cTxRecNoTo : Transaction :=
  { hash := some "0xh4", fromAddr := some "0xa", toAddr := "Contract Creation",
    value := "1.0", timestamp := 1700000003, blockNumber := 103 }

/-- C8 witness: the absent-recipient sample row converts to a record whose
recipient is the sentinel and not the empty string. -/
theorem c8_witness :
    cTxRecNoTo.toAddr = "Contract Creation" ∧ cTxRecNoTo.toAddr ≠ "" :=
  ⟨(c8_contract_creation cTxRowNoTo cTxRecNoTo rfl).1 (Or.inl rfl),
   (c8_contract_creation cTxRowNoTo cTxRecNoTo rfl).2⟩

/-- C10: in `getAddressBalance` and `getENSName` the provider is resolved
before the address is canonicalized, so on a credential-less resolved
network the reported failure is the missing-credential error for every
address and every canonicalization function — never the invalid-address
error — and no outbound call is made. -/
theorem c10_provider_before_canon (env : Env) (canon : String → Option String)
    (bal : NetworkType → String → Int) (ens : String → Option String)
    (address : String) (network : Option NetworkType)
    (h : env.apiKeys (resolveNetwork env network) = "") :
    getAddressBalance env canon bal address network =
      (Except.error ("Failed to get balance: " ++
        providerMissingMsg (resolveNetwork env network)), []) ∧
    getENSName env canon ens address network =
      (Except.error ("Failed to get ENS name: " ++
        providerMissingMsg (resolveNetwork env network)), []) := by
  constructor
  · unfold getAddressBalance getProvider
    simp [hasProvider, h]
  · unfold getENSName getProvider
    simp [hasProvider, h]

/-- C10 witness: a malformed address (rejected by the sample canonicalizer)
queried against the credential-less default network reports the
missing-credential error, not the invalid-address error. -/
theorem c10_witness :
    canonSample cBadAddr = none ∧
    getAddressBalance cEnvEthOnly canonSample balSample cBadAddr none =
      (Except.error ("Failed to get balance: " ++
        providerMissingMsg (resolveNetwork cEnvEthOnly none)), []) ∧
    getENSName cEnvEthOnly canonSample ensNone cBadAddr none =
      (Except.error ("Failed to get ENS name: " ++
        providerMissingMsg (resolveNetwork cEnvEthOnly none)), []) :=
  ⟨rfl,
   (c10_provider_before_canon cEnvEthOnly canonSample balSample ensNone cBadAddr none rfl).1,
   (c10_provider_before_canon cEnvEthOnly canonSample balSample ensNone cBadAddr none rfl).2⟩

/-- The explorer's actual no-matching-rows reply for `txlist`:
status `"0"`, message `No transactions found`, and an empty (but present)
result array. -/
def respNoTx : ApiResponse (List TxRow) :=
  { status := "0", message := some "No transactions found", result := some [] }

/-- C2 counterexample: on the upstream no-matching-rows reply — whose
result payload is present (an empty array) but whose status is non-success
— `getTransactions` throws instead of returning an empty sequence, so an
error is raised even though a result payload is there. -/
theorem c2_counterexample :
    (getTransactionHistory cEnvAll canonSample respNoTx cAddr 10 none).1 =
      Except.error "Failed to get transaction history: No transactions found" ∧
    (getTransactionHistory cEnvAll canonSample respNoTx cAddr 10 none).1 ≠
      Except.ok [] := by
  have h1 : (getTransactionHistory cEnvAll canonSample respNoTx cAddr 10 none).1 =
      Except.error "Failed to get transaction history: No transactions found" := rfl
  exact ⟨h1, by rw [h1]; simp⟩

/-- C2 amended: `getTransactions` returns an empty sequence (not an error)
exactly when upstream reports a success status with an empty rows payload;
it raises an error whenever the status is non-success — even when a result
payload is present — or the result payload is absent. -/
theorem c2_amended (env : Env) (canon : String → Option String)
    (resp : ApiResponse (List TxRow)) (address : String) (limit : Nat)
    (network : Option NetworkType) (a : String)
    (hc : canon address = some a) :
    (resp.status = "1" → resp.result = some [] →
      (getTransactionHistory env canon resp address limit network).1 = Except.ok []) ∧
    (resp.status ≠ "1" ∨ resp.result = none →
      (getTransactionHistory env canon resp address limit network).1 =
        Except.error ("Failed to get transaction history: " ++
          jsOr resp.message "Failed to fetch transactions")) := by
  constructor
  · intro hs hr
    simp only [getTransactionHistory, hc, hr]
    rw [if_pos hs]
    simp [mapME]
  · intro hbad
    simp only [getTransactionHistory, hc]
    rcases hbad with hs | hr
    · rw [if_neg hs]
    · by_cases hs : resp.status = "1"
      · rw [if_pos hs, hr]
      · rw [if_neg hs]

/-- A success-status reply with an empty rows payload. -/
def respEmptyOk : ApiResponse (List TxRow) :=
  { status := "1", message := some "OK", result := some [] }

/-- C2 witness: a success-status empty payload yields the empty sequence,
and the actual no-rows reply (non-success status, payload present) yields
the thrown upstream message. -/
theorem c2_witness :
    (getTransactionHistory cEnvAll canonSample respEmptyOk cAddr 10 none).1 =
      Except.ok [] ∧
    (getTransactionHistory cEnvAll canonSample respNoTx cAddr 10 none).1 =
      Except.error ("Failed to get transaction history: " ++
        jsOr respNoTx.message "Failed to fetch transactions") :=
  ⟨(c2_amended cEnvAll canonSample respEmptyOk cAddr 10 none cAddr rfl).1 rfl rfl,
   (c2_amended cEnvAll canonSample respNoTx cAddr 10 none cAddr rfl).2
     (Or.inl (by decide))⟩

/-- A token-transfer row of one whole token: value `10^18`, 18 decimals. -/
def cTokRow18 : TokenRow :=
  { contractAddress := some "0xtoken1", tokenName := some "TokenA",
    tokenSymbol := some "TKA", fromAddr := some "0xa", toAddr := some "0xb",
    value := some "1000000000000000000", timeStamp := some "1700000000",
    blockNumber := some "100", tokenDecimal := some "18" }

/-- A token-transfer row of half a token: value `500000`, 6 decimals. -/
def cTokRow6 : TokenRow :=
  { contractAddress := some "0xtoken2", tokenName := some "TokenB",
    tokenSymbol := some "TKB", fromAddr := some "0xa", toAddr := some "0xb",
    value := some "500000", timeStamp := some "1700000001",
    blockNumber := some "101", tokenDecimal := some "6" }

/-- A response carrying only the whole-token row. -/
def respTok18 : ApiResponse (List TokenRow) :=
  { status := "1", message := some "OK", result := some [cTokRow18] }

/-- A response carrying both sample token rows. -/
def respTokBoth : ApiResponse (List TokenRow) :=
  { status := "1", message := some "OK", result := some [cTokRow18, cTokRow6] }

/-- The record produced from `cTokRow18`: the formatted value is `"1.0"`. -/
def cTokRec18 : TokenTransfer :=
  { token := some "0xtoken1", tokenName := some "TokenA",
    tokenSymbol := some "TKA", fromAddr := some "0xa", toAddr := some "0xb",
    value := "1.0", timestamp := 1700000000, blockNumber := 100 }

/-- The record produced from `cTokRow6`: the formatted value is `"0.5"`. -/
def cTokRec6 : TokenTransfer :=
  { token := some "0xtoken2", tokenName := some "TokenB",
    tokenSymbol := some "TKB", fromAddr := some "0xa", toAddr := some "0xb",
    value := "0.5", timestamp := 1700000001, blockNumber := 101 }

/-- C3 counterexample: the row with value `"1000000000000000000"` and
token-decimal `"18"` converts to the formatted value `"1.0"` (the ethers v6
fixed-point renderer keeps one digit after the point), not `"1"` as
claimed. -/
theorem c3_counterexample :
    (getTokenTransfers cEnvAll canonSample respTok18 cAddr 10 none).1 =
      Except.ok [cTokRec18] ∧
    cTokRec18.value = "1.0" ∧ cTokRec18.value ≠ "1" := by
  exact ⟨rfl, rfl, by simp [cTokRec18]⟩

/-- C3 amended: `getTokenTransfers` converts the row with value
`"1000000000000000000"` and token-decimal `"18"` to formatted value
`"1.0"`, and the row with value `"500000"` and token-decimal `"6"` to
`"0.5"`, using the per-row decimal count for every row. -/
theorem c3_amended :
    (getTokenTransfers cEnvAll canonSample respTokBoth cAddr 10 none).1 =
      Except.ok [cTokRec18, cTokRec6] := rfl

/-- A gas-oracle failure reply carrying an upstream message. -/
def respGas0 : ApiResponse GasRow :=
  { status := "0", message := some "Rate limit reached", result := none }

/-- C4 counterexample: on upstream status `"0"` the error surfaced by
`getGasOracle` is `Failed to get gas prices: Rate limit reached` — the
catch block prefixes the upstream text, so the message is not the upstream
message unmodified. -/
theorem c4_counterexample :
    (getGasOracle cEnvAll respGas0 none).1 =
      Except.error "Failed to get gas prices: Rate limit reached" ∧
    (getGasOracle cEnvAll respGas0 none).1 ≠
      Except.error "Rate limit reached" := by
  have h1 : (getGasOracle cEnvAll respGas0 none).1 =
      Except.error "Failed to get gas prices: Rate limit reached" := rfl
  refine ⟨h1, ?_⟩
  rw [h1]
  intro h
  injection h with h
  exact absurd h (by decide)

/-- C4 amended: whenever the upstream gas-oracle response has status `"0"`
and a non-empty upstream message, `getGasOracle` fails with an error whose
message is `Failed to get gas prices: ` followed by the upstream message
text, carried unmodified as the suffix; an absent or empty upstream
message is replaced by the generic description. -/
theorem c4_amended (env : Env) (network : Option NetworkType)
    (resp : ApiResponse GasRow) (m : String)
    (h0 : resp.status = "0") (hm : resp.message = some m) (hne : m ≠ "") :
    (getGasOracle env resp network).1 =
      Except.error ("Failed to get gas prices: " ++ m) := by
  simp only [getGasOracle]
  rw [if_neg (by rw [h0]; decide)]
  simp [hm, jsOr, hne]

/-- C4 witness: the theorem applied to the sample rate-limit reply. -/
theorem c4_witness :
    (getGasOracle cEnvAll respGas0 none).1 =
      Except.error ("Failed to get gas prices: " ++ "Rate limit reached") :=
  c4_amended cEnvAll none respGas0 "Rate limit reached" rfl rfl (by decide)

/-- A transaction row whose timestamp field is not numeric. -/
def cTxRowBadTs : TxRow :=
  { hash := some "0xh9", fromAddr := some "0xa", toAddr := some "0xb",
    value := some "1000", timeStamp := some "not-a-number",
    blockNumber := some "5" }

/-- A response carrying the bad-timestamp row. -/
def respBadTs : ApiResponse (List TxRow) :=
  { status := "1", message := some "OK", result := some [cTxRowBadTs] }

/-- The record produced from `cTxRowBadTs`: the unparseable timestamp is
silently replaced by `0` and the call succeeds. -/
def cTxRecBadTs : Transaction :=
  { hash := some "0xh9", fromAddr := some "0xa", toAddr := "0xb",
    value := "0.000000000000001", timestamp := 0, blockNumber := 5 }

/-- C9 counterexample: a row whose timestamp does not parse as a number
does not fail the operation — `getTransactions` succeeds and the record
carries the silent default `0`. -/
theorem c9_counterexample :
    (getTransactionHistory cEnvAll canonSample respBadTs cAddr 10 none).1 =
      Except.ok [cTxRecBadTs] ∧
    cTxRecBadTs.timestamp = 0 :=
  ⟨rfl, rfl⟩

/-- A token row whose decimal-count field is not numeric. -/
def cTokRowBadDec : TokenRow :=
  { contractAddress := some "0xtoken3", tokenName := some "TokenC",
    tokenSymbol := some "TKC", fromAddr := some "0xa", toAddr := some "0xb",
    value := some "500000", timeStamp := some "1700000002",
    blockNumber := some "102", tokenDecimal := some "N/A" }

/-- C9 amended: only the token-decimal count is parsed failure-checked — a
missing or non-numeric per-row decimal count makes the row conversion (and
with it `getTokenTransfers`) fail hard, because `formatUnits` rejects a
`NaN` decimal count — while a missing or non-numeric block number or
timestamp in either operation is silently replaced by the default `0`
rather than raising an error. -/
theorem c9_amended :
    (∀ r : TokenRow, jsParseInt r.tokenDecimal = none →
      formatTokenRow r = Except.error "invalid numeric value") ∧
    (∀ (r : TxRow) (tx : Transaction), formatTxRow r = Except.ok tx →
      tx.timestamp = jsIntOrZero (jsParseInt r.timeStamp) ∧
      tx.blockNumber = jsIntOrZero (jsParseInt r.blockNumber)) ∧
    (∀ (r : TokenRow) (tx : TokenTransfer), formatTokenRow r = Except.ok tx →
      tx.timestamp = jsIntOrZero (jsParseInt r.timeStamp) ∧
      tx.blockNumber = jsIntOrZero (jsParseInt r.blockNumber)) := by
  refine ⟨?_, ?_, ?_⟩
  · intro r hdec
    unfold formatTokenRow formatUnits
    rw [hdec]
  · intro r tx h
    unfold formatTxRow at h
    cases hv : formatEtherStr r.value with
    | error e => rw [hv] at h; exact absurd h (by simp)
    | ok v =>
      rw [hv] at h
      injection h with h
      subst h
      exact ⟨rfl, rfl⟩
  · intro r tx h
    unfold formatTokenRow at h
    cases hv : formatUnits r.value (jsParseInt r.tokenDecimal) with
    | error e => rw [hv] at h; exact absurd h (by simp)
    | ok v =>
      rw [hv] at h
      injection h with h
      subst h
      exact ⟨rfl, rfl⟩

/-- C9 witness: the theorem applied to the non-numeric-decimal token row
(hard failure) and to the non-numeric-timestamp transaction row (silent
zero). -/
theorem c9_witness :
    formatTokenRow cTokRowBadDec = Except.error "invalid numeric value" ∧
    cTxRecBadTs.timestamp = jsIntOrZero (jsParseInt cTxRowBadTs.timeStamp) :=
  ⟨c9_amended.1 cTokRowBadDec rfl,
   (c9_amended.2.1 cTxRowBadTs cTxRecBadTs rfl).1⟩

/-- The not-supported message starts with the character `E`. -/
theorem ensOnlyMainnetMsg_head (n : NetworkType) :
    (ensOnlyMainnetMsg n).data.head? = some 'E' := by
  cases n <;> rfl

/-- The not-found message starts with the character `N`. -/
theorem ensNotFoundMsg_head (s : String) :
    (ensNotFoundMsg s).data.head? = some 'N' := by
  unfold ensNotFoundMsg
  rw [str_data_append]
  rfl

/-- On a non-mainnet resolved network, `getENSName` issues no outbound
call, and when the credential is usable and the address canonicalizes it
returns the collapsed `null` result. -/
theorem getENSName_nonmainnet (env : Env) (canon : String → Option String)
    (ens : String → Option String) (address : String)
    (network : Option NetworkType)
    (hsel : resolveNetwork env network ≠ NetworkType.ethereum) :
    (getENSName env canon ens address network).2 = [] ∧
    (env.apiKeys (resolveNetwork env network) ≠ "" →
      ∀ a, canon address = some a →
      (getENSName env canon ens address network).1 = Except.ok none) := by
  have hname : ¬(NETWORK_CONFIGS (resolveNetwork env network)).networkName = "mainnet" := by
    intro hm
    exact hsel ((networkName_mainnet_iff _).mp hm)
  constructor
  · simp only [getENSName, getProvider]
    by_cases hk : hasProvider env (resolveNetwork env network)
    · rw [if_pos hk]
      cases hc : canon address with
      | none => simp
      | some a => simp [hname]
    · rw [if_neg hk]
  · intro hk' a hc
    have hk : hasProvider env (resolveNetwork env network) = true := by
      simp [hasProvider, bne_iff_ne, hk']
    simp only [getENSName, getProvider]
    rw [if_pos hk]
    simp [hc, hname]

/-- The `get-ens-name` continuation forwards the outbound-call trace of the
service unchanged. -/
theorem ensLookupText_trace (env : Env) (canon : String → Option String)
    (ens : String → Option String) (address : String)
    (network : Option NetworkType) :
    (ensLookupText env canon ens address network).2 =
      (getENSName env canon ens address network).2 := by
  simp only [ensLookupText]
  rcases h : getENSName env canon ens address network with ⟨res, tr⟩
  cases res with
  | error e => simp
  | ok o =>
    by_cases hsel' : resolveNetwork env network = NetworkType.ethereum
    · cases o with
      | none => simp [hsel']
      | some nm => by_cases hnm : nm = "" <;> simp [hsel', hnm]
    · simp [hsel']

/-- When the resolved network is not ethereum and the service call
succeeds, the `get-ens-name` continuation reports the not-supported
outcome. -/
theorem ensLookupText_notsupported (env : Env) (canon : String → Option String)
    (ens : String → Option String) (address : String)
    (network : Option NetworkType) (o : Option String)
    (hsel : resolveNetwork env network ≠ NetworkType.ethereum)
    (hg : (getENSName env canon ens address network).1 = Except.ok o) :
    (ensLookupText env canon ens address network).1 =
      Except.ok (ensOnlyMainnetMsg (resolveNetwork env network)) := by
  simp only [ensLookupText]
  rcases h : getENSName env canon ens address network with ⟨res, tr⟩
  rw [h] at hg
  simp only at hg
  subst hg
  simp [hsel]

/-- C1 amended: for every resolved network other than ethereum, the
`get-ens-name` tool issues no upstream ENS call at all; when that network
additionally has a usable credential and the address canonicalizes, the
tool returns the not-supported outcome — a message distinct from every
not-found message.  When the resolved (default) network lacks a usable
credential, the surfaced outcome is the missing-credential error instead. -/
theorem c1_amended (env : Env) (canon : String → Option String)
    (ens : String → Option String) (address : String)
    (network : Option NetworkType)
    (hsel : resolveNetwork env network ≠ NetworkType.ethereum) :
    (handleGetEnsName env canon ens address network).2 = [] ∧
    (env.apiKeys (resolveNetwork env network) ≠ "" →
      ∀ a, canon address = some a →
      (handleGetEnsName env canon ens address network).1 =
        Except.ok (ensOnlyMainnetMsg (resolveNetwork env network))) ∧
    (∀ s, ensOnlyMainnetMsg (resolveNetwork env network) ≠ ensNotFoundMsg s) := by
  refine ⟨?_, ?_, ?_⟩
  · cases network with
    | none =>
      simp only [handleGetEnsName]
      rw [ensLookupText_trace]
      exact (getENSName_nonmainnet env canon ens address none hsel).1
    | some n =>
      simp only [handleGetEnsName]
      by_cases hsup : isNetworkSupported env (some n) = true
      · rw [if_pos hsup]
        rw [ensLookupText_trace]
        exact (getENSName_nonmainnet env canon ens address (some n) hsel).1
      · rw [if_neg hsup]
  · intro hk a hc
    cases network with
    | none =>
      simp only [handleGetEnsName]
      exact ensLookupText_notsupported env canon ens address none none hsel
        ((getENSName_nonmainnet env canon ens address none hsel).2 hk a hc)
    | some n =>
      have hsup : isNetworkSupported env (some n) = true := by
        simp only [isNetworkSupported, resolveNetwork, Option.getD_some]
        have : env.apiKeys n ≠ "" := hk
        simp [bne_iff_ne, this, hasProvider]
      simp only [handleGetEnsName]
      rw [if_pos hsup]
      exact ensLookupText_notsupported env canon ens address (some n) none hsel
        ((getENSName_nonmainnet env canon ens address (some n) hsel).2 hk a hc)
  · intro s
    apply head_ne_of_string_ne
    rw [ensOnlyMainnetMsg_head, ensNotFoundMsg_head]
    decide

/-- C1 counterexample: with the default network sonic lacking a credential,
the `get-ens-name` tool on a valid address surfaces the missing-credential
error, not the not-supported outcome the claim promises for every
non-mainnet resolved network. -/
theorem c1_counterexample :
    (handleGetEnsName cEnvEthOnly canonSample ensNone cAddr none).1 =
      Except.error "Failed to get ENS name: Network sonic is not supported or missing API key" ∧
    (handleGetEnsName cEnvEthOnly canonSample ensNone cAddr none).1 ≠
      Except.ok (ensOnlyMainnetMsg NetworkType.sonic) := by
  have h1 : (handleGetEnsName cEnvEthOnly canonSample ensNone cAddr none).1 =
      Except.error "Failed to get ENS name: Network sonic is not supported or missing API key" := rfl
  exact ⟨h1, by rw [h1]; simp⟩

/-- C1 witness: on sonic with a usable credential and a valid address, the
tool answers with the not-supported outcome and issues no upstream call. -/
theorem c1_witness :
    (handleGetEnsName cEnvAll canonSample ensNone cAddr (some NetworkType.sonic)).2 = [] ∧
    (handleGetEnsName cEnvAll canonSample ensNone cAddr (some NetworkType.sonic)).1 =
      Except.ok (ensOnlyMainnetMsg (resolveNetwork cEnvAll (some NetworkType.sonic))) ∧
    ensOnlyMainnetMsg (resolveNetwork cEnvAll (some NetworkType.sonic)) ≠
      ensNotFoundMsg cAddr := by
  have h := c1_amended cEnvAll canonSample ensNone cAddr (some NetworkType.sonic) (by decide)
  exact ⟨h.1, h.2.1 (by decide) cAddr rfl, h.2.2 cAddr⟩

/-- C6 counterexample: a balance query whose resolved (default) network
lacks a credential fails with a message that does not include the list of
currently usable networks. -/
theorem c6_counterexample :
    handleCheckBalance cEnvEthOnly canonSample balSample cAddr none =
      Except.error "Failed to get balance: Network sonic is not supported or missing API key" ∧
    strContainsSub
      "Failed to get balance: Network sonic is not supported or missing API key"
      (availListMsg cEnvEthOnly) = false :=
  ⟨rfl, rfl⟩

/-- C6 amended: only when the unusable network is explicitly named does the
surfaced message include the list of currently usable networks (the
handler-level check); when the credential-less network is the resolved
default, the surfaced error names the network but carries no list of
usable networks. -/
theorem c6_amended (env : Env) (canon : String → Option String)
    (bal : NetworkType → String → Int) (address : String) (n : NetworkType)
    (h : env.apiKeys n = "") :
    handleCheckBalance env canon bal address (some n) =
      Except.ok (networkUnsupMsg env n) ∧
    strContainsSub (networkUnsupMsg env n) (availListMsg env) = true ∧
    (env.apiKeys env.defaultNetwork = "" →
      handleCheckBalance env canon bal address none =
        Except.error ("Failed to get balance: " ++
          providerMissingMsg env.defaultNetwork)) := by
  refine ⟨?_, ?_, ?_⟩
  · have hsup : isNetworkSupported env (some n) = false := by
      simp [isNetworkSupported, resolveNetwork, hasProvider, h]
    simp only [handleCheckBalance]
    rw [if_neg (by rw [hsup]; decide)]
  · unfold strContainsSub networkUnsupMsg
    rw [str_data_append]
    exact listHasSub_self_suffix _ _
  · intro h2
    simp only [handleCheckBalance, balanceText, getAddressBalance, getProvider]
    simp [hasProvider, h2, resolveNetwork]

/-- C6 witness: the theorem applied to the ethereum-only credential set —
the explicit sonic request gets the message with the available-network
list, the defaulted request gets the bare missing-credential error. -/
theorem c6_witness :
    handleCheckBalance cEnvEthOnly canonSample balSample cAddr (some NetworkType.sonic) =
      Except.ok (networkUnsupMsg cEnvEthOnly NetworkType.sonic) ∧
    strContainsSub (networkUnsupMsg cEnvEthOnly NetworkType.sonic)
      (availListMsg cEnvEthOnly) = true ∧
    handleCheckBalance cEnvEthOnly canonSample balSample cAddr none =
      Except.error ("Failed to get balance: " ++
        providerMissingMsg cEnvEthOnly.defaultNetwork) := by
  have h := c6_amended cEnvEthOnly canonSample balSample cAddr NetworkType.sonic rfl
  exact ⟨h.1, h.2.1, h.2.2 rfl⟩

end Escan
